import Mathlib

/-!
Verification of the IoM TypeScript client core: the spite-handler decoder
(src/utils/spite-handler.ts), the session scope (src/session.ts) and the
unified gRPC dispatcher (src/client.node.ts), embedded shallowly.

JavaScript optional values are `Option`; the `||` default operator is
`jsOrString` / `jsOrNat` (empty string and zero are falsy); functions that
`throw` return `Except`.
-/

namespace IoM

/-- JS `v || dflt` on an optional string: undefined and the empty string fall to the default. -/
def jsOrString (v : Option String) (dflt : String) : String :=
  match v with
  | some s => if s = "" then dflt else s
  | none => dflt

/-- JS `v || dflt` on an optional number: undefined and zero fall to the default. -/
def jsOrNat (v : Option Nat) (dflt : Nat) : Nat :=
  match v with
  | some n => if n = 0 then dflt else n
  | none => dflt

/-- JS truthiness of an optional string. -/
def jsTruthyStr (v : Option String) : Bool :=
  match v with
  | some s => !(s == "")
  | none => false

/-- JS truthiness of an optional number. -/
def jsTruthyNat (v : Option Nat) : Bool :=
  match v with
  | some n => !(n == 0)
  | none => false

/-! Response decoder: embedding of src/src/utils/spite-handler.ts. -/

/-- The `response` variant payload of a Spite body (module_pb Response): both
fields are optional on the wire. -/
structure Response where
  output : Option String
  error : Option String
deriving DecidableEq

/-- The tagged union `spite.body`; the decoder only understands the
`response` case (`body.case === "response"`), everything else is opaque. -/
inductive SpiteBody where
  | response (value : Option Response)
  | other (caseName : String)
deriving DecidableEq

/-- implantpb Status: inner task-status code plus caller-provided error text. -/
structure Status where
  status : Option Nat
  error : Option String
deriving DecidableEq

/-- implantpb Spite: outer error code, optional Status, optional body. -/
structure Spite where
  error : Option Nat
  status : Option Status
  body : Option SpiteBody
deriving DecidableEq

/-- clientpb TaskContext as the decoder sees it: a wrapper around one Spite. -/
structure TaskContext where
  spite : Option Spite
deriving DecidableEq

/-- SpiteError: message plus optional numeric code (the class in spite-handler.ts). -/
structure SpiteError where
  message : String
  code : Option Nat
deriving DecidableEq

/-- JSON.stringify string escaping, restricted to the quote and backslash
escapes (no control characters occur in the inputs considered here). -/
def jsonEscape (s : String) : String :=
  s.foldl (fun acc c =>
    acc ++ (if c = '"' then "\\\"" else if c = '\\' then "\\\\" else String.singleton c)) ""

/-- JSON.stringify of a Status object: fields present on the object, in
declaration order, undefined fields omitted. -/
def jsonStringifyStatus (st : Status) : String :=
  "\x7b" ++ String.intercalate ","
    ((match st.status with
      | some n => ["\"status\":" ++ toString n]
      | none => []) ++
     (match st.error with
      | some e => ["\"error\":\"" ++ jsonEscape e ++ "\""]
      | none => [])) ++ "\x7d"

/-- handleTaskError (spite-handler.ts:83-109): inner Taxonomy B classification.
`null` is `none`; the switch on `status.status || 0` is the match on `jsOrNat`. -/
def handleTaskError (status : Option Status) : Option SpiteError :=
  match status with
  | none => some { message := "nil status or unknown error", code := none }
  | some st =>
    match jsOrNat st.status 0 with
    | 0 => none
    | 1 => some { message := "task error: " ++ jsOrString st.error "unknown error", code := some 1 }
    | 2 => some { message := "task error: " ++ jsOrString st.error "unknown error", code := some 2 }
    | 3 => some { message := "task error: " ++ jsOrString st.error "unknown error", code := some 3 }
    | 4 => some { message := "task error: " ++ jsOrString st.error "unknown error", code := some 4 }
    | 5 => some { message := "task error: " ++ jsOrString st.error "unknown error", code := some 5 }
    | 6 => some { message := "task error: " ++ jsOrString st.error "unknown error", code := some 6 }
    | c => some { message := "unknown error: " ++ jsonStringifyStatus st, code := some c }

/-- handleMaleficError (spite-handler.ts:45-78): outer Taxonomy A classification
of `spite.error || 0`; code 6 (TaskError) defers to `handleTaskError spite.status`. -/
def handleMaleficError (spite : Option Spite) : Option SpiteError :=
  match spite with
  | none => some { message := "nil spite", code := none }
  | some s =>
    match jsOrNat s.error 0 with
    | 0 => none
    | 1 => some { message := "module Panic", code := some 1 }
    | 2 => some { message := "module unpack error", code := some 2 }
    | 3 => some { message := "module miss body", code := some 3 }
    | 4 => some { message := "module error", code := some 4 }
    | 5 => some { message := "module not found", code := some 5 }
    | 6 => handleTaskError s.status
    | 7 => some { message := "task not found", code := some 7 }
    | 8 => some { message := "task operator not found", code := some 8 }
    | 9 => some { message := "extension not found", code := some 9 }
    | 10 => some { message := "unexcept body", code := some 10 }
    | c => some { message := "unknown Malefic error: " ++ toString c, code := some c }

/-- extractResponse (spite-handler.ts:114-130): the `response` variant of the
body, when the tag matches and the value is present. -/
def extractResponse (spite : Option Spite) : Option Response :=
  match spite with
  | none => none
  | some s =>
    match s.body with
    | none => none
    | some b =>
      match b with
      | .response (some v) => some v
      | _ => none

/-- extractResponseFromTaskContext (spite-handler.ts:136-154): returns null for
an absent context or spite, throws the Taxonomy A error when there is one,
otherwise extracts the response variant. -/
def extractResponseFromTaskContext (taskContext : Option TaskContext) :
    Except SpiteError (Option Response) :=
  match taskContext with
  | none => .ok none
  | some tc =>
    match tc.spite with
    | none => .ok none
    | some s =>
      match handleMaleficError (some s) with
      | some e => .error e
      | none => .ok (extractResponse (some s))

/-- extractOutput (spite-handler.ts:159-165): `response.output || ""`. -/
def extractOutput (response : Option Response) : String :=
  match response with
  | none => ""
  | some r => jsOrString r.output ""

/-- extractError (spite-handler.ts:170-176): `response.error || ""`. -/
def extractError (response : Option Response) : String :=
  match response with
  | none => ""
  | some r => jsOrString r.error ""

/-- getOutputFromTaskContext (spite-handler.ts:182-185): fast path, just the
output string. -/
def getOutputFromTaskContext (taskContext : Option TaskContext) : Except SpiteError String :=
  match extractResponseFromTaskContext taskContext with
  | .error e => .error e
  | .ok response => .ok (extractOutput response)

/-- The triple parseTaskContext returns. -/
structure ParsedTaskContext where
  output : String
  error : String
  response : Option Response
deriving DecidableEq

/-- parseTaskContext (spite-handler.ts:191-217): throws on an absent context or
spite, throws the Taxonomy A error when there is one, otherwise returns the
output/error/response triple. -/
def parseTaskContext (taskContext : Option TaskContext) :
    Except SpiteError ParsedTaskContext :=
  match taskContext with
  | none => .error { message := "nil task context", code := none }
  | some tc =>
    match tc.spite with
    | none => .error { message := "nil spite in task context", code := none }
    | some s =>
      match handleMaleficError (some s) with
      | some e => .error e
      | none =>
        .ok { output := extractOutput (extractResponse (some s))
            , error := extractError (extractResponse (some s))
            , response := extractResponse (some s) }

/-! Session scope call model: embedding of src/src/session.ts lines 41-101.
Plain string-keyed header records are association lists written through
`hset` (assignment: replace the key when bound, append it otherwise). -/

/-- JS String.prototype.startsWith, on the character lists of the strings. -/
def strStartsWith (s pre : String) : Bool :=
  pre.data.isPrefixOf s.data

/-- JS String.prototype.substring(n) (all strings involved are ASCII). -/
def strDrop (s : String) (n : Nat) : String :=
  ⟨s.data.drop n⟩

/-- Write one key of a plain string-keyed record, as JS `m[k] = v`. -/
def hset : List (String × String) → String → String → List (String × String)
  | [], k, v => [(k, v)]
  | p :: m, k, v => if p.1 = k then (k, v) :: m else p :: hset m k v

/-- Read one key of a plain string-keyed record. -/
def hget : List (String × String) → String → Option String
  | [], _ => none
  | p :: m, k => if p.1 = k then some p.2 else hget m k

/-- Call options as the dispatcher receives them: a header record plus an
optional timeout. -/
structure CallOpts where
  headers : List (String × String)
  timeoutMs : Option Nat
deriving DecidableEq

/-- Caller-supplied options object for a forwarded session call: a possibly
absent headers record plus an optional timeout. -/
structure Options where
  headers : Option (List (String × String))
  timeoutMs : Option Nat
deriving DecidableEq

/-- session.ts lines 50-60 and 88-98: an empty record, then every
caller-supplied header copied in, then `headers["session_id"]` assigned the
scope's bound identifier (written last). -/
def buildHeaders (sid : String) (callerHeaders : Option (List (String × String))) :
    List (String × String) :=
  hset
    (match callerHeaders with
     | some hs => hs.foldl (fun m kv => hset m kv.1 kv.2) []
     | none => [])
    "session_id" sid

/-- The shapes of a dynamically-typed phase-one result the sync convention
inspects: a nullish value, a non-object primitive, or an object whose
`taskId` / `sessionId` fields may each be absent. -/
inductive JsValue where
  | nullish
  | prim (s : String)
  | obj (taskId : Option String) (sessionId : Option String) (payload : String)
deriving DecidableEq

/-- The request `{ taskId, sessionId }` passed to waitTaskFinish. -/
structure WaitRequest where
  taskId : String
  sessionId : String
deriving DecidableEq

/-- The two dispatcher operations a session-scoped call touches: the
underlying submit-style method and the fixed waitTaskFinish operation. -/
structure ClientModel where
  methodImpl : JsValue → CallOpts → JsValue
  waitTaskFinish : WaitRequest → CallOpts → JsValue

/-- Result of a plain (non-sync) forwarded call, with the argument pair the
dispatcher method was invoked with. -/
structure NormalOutcome where
  result : JsValue
  submitCall : JsValue × CallOpts

/-- session.ts lines 85-101: a plain forwarded call builds the headers, then
invokes the dispatcher method with `(request, { ...options, headers })`. -/
def normalCall (client : ClientModel) (sid : String) (request : JsValue)
    (options : Options) : NormalOutcome :=
  { result := client.methodImpl request
      { headers := buildHeaders sid options.headers, timeoutMs := options.timeoutMs }
  , submitCall := (request,
      { headers := buildHeaders sid options.headers, timeoutMs := options.timeoutMs }) }

/-- Result of a sync_-convention call: the value returned to the caller, the
phase-one invocation, and every phase-two (waitTaskFinish) invocation made. -/
structure SyncOutcome where
  result : JsValue
  submitCall : JsValue × CallOpts
  waitCalls : List (WaitRequest × CallOpts)

/-- session.ts lines 47-78: a sync_ call performs phase one exactly as a plain
call; when the result is an object with a `taskId` field it invokes
waitTaskFinish once with `{ taskId: task.taskId, sessionId: task.sessionId ||
sid }` and `{ headers, timeoutMs: options.timeoutMs || 60000 }` and returns
that result, otherwise it returns the phase-one result unchanged. -/
def syncCall (client : ClientModel) (sid : String) (request : JsValue)
    (options : Options) : SyncOutcome :=
  match client.methodImpl request
      { headers := buildHeaders sid options.headers, timeoutMs := options.timeoutMs } with
  | .obj (some taskId) taskSid _ =>
    { result := client.waitTaskFinish
        { taskId := taskId, sessionId := jsOrString taskSid sid }
        { headers := buildHeaders sid options.headers
        , timeoutMs := some (jsOrNat options.timeoutMs 60000) }
    , submitCall := (request,
        { headers := buildHeaders sid options.headers, timeoutMs := options.timeoutMs })
    , waitCalls := [({ taskId := taskId, sessionId := jsOrString taskSid sid },
        { headers := buildHeaders sid options.headers
        , timeoutMs := some (jsOrNat options.timeoutMs 60000) })] }
  | t =>
    { result := t
    , submitCall := (request,
        { headers := buildHeaders sid options.headers, timeoutMs := options.timeoutMs })
    , waitCalls := [] }

/-- The shape test of session.ts line 64: `task && typeof task === "object" &&
"taskId" in task`. -/
def hasTaskShape : JsValue → Bool
  | .obj (some _) _ _ => true
  | _ => false

/-! Unified dispatcher: embedding of src/src/client.node.ts. -/

/-- AuthConfig (config.ts): mutual-TLS material plus host and port. -/
structure AuthConfig where
  host : String
  port : Nat
  ca : String
  cert : String
  key : String
deriving DecidableEq

/-- The two transport kinds of GrpcClientConfig.transport. -/
inductive TransportType where
  | grpc
  | grpcWeb
deriving DecidableEq

/-- GrpcClientConfig (client.node.ts:15-22); onLog is diagnostic only and not
modelled. -/
structure GrpcClientConfig where
  transport : Option TransportType
  baseUrl : Option String
  auth : Option AuthConfig
  timeout : Option Nat
  defaultHeaders : Option (List (String × String))
deriving DecidableEq

/-- The transport value createTransport builds when it does not throw. -/
inductive Transport where
  | native (auth : AuthConfig)
  | web (baseUrl : String)
deriving DecidableEq

/-- createTransport (client.node.ts:67-94): `config.transport || "grpc-web"`
selects the branch; the native branch throws without auth material, the web
branch throws without a (truthy) baseUrl. -/
def createTransport (config : GrpcClientConfig) : Except String Transport :=
  match config.transport.getD .grpcWeb with
  | .grpc =>
    match config.auth with
    | none => .error "Auth configuration is required for native gRPC transport"
    | some auth => .ok (.native auth)
  | .grpcWeb =>
    if jsTruthyStr config.baseUrl then .ok (.web (config.baseUrl.getD ""))
    else .error "baseUrl is required for gRPC-Web transport"

/-- The state a successfully constructed GrpcClient holds. -/
structure GrpcClientState where
  config : GrpcClientConfig
  transport : Transport
deriving DecidableEq

/-- The GrpcClient constructor (client.node.ts:29-34) up to the point a remote
call could first be attempted: it stores the config and calls createTransport,
so a createTransport failure is a construction-time failure. -/
def constructGrpcClient (config : GrpcClientConfig) : Except String GrpcClientState :=
  match createTransport config with
  | .error e => .error e
  | .ok t => .ok { config := config, transport := t }

/-- Headers.set as used by mergeCallOptions: a case-insensitive header set,
modelled by lower-casing the key before the record write. -/
def hsetCI (m : List (String × String)) (k v : String) : List (String × String) :=
  hset m k.toLower v

/-- mergeCallOptions (client.node.ts:108-135): client-level default headers,
then caller-supplied headers, into one Headers set; the configured default
timeout applies when the client has one and the caller supplied none. -/
def mergeCallOptions (config : GrpcClientConfig) (callOptions : Option CallOpts) : CallOpts :=
  { headers :=
      (match callOptions with
       | some co => co.headers
       | none => []).foldl (fun m (kv : String × String) => hsetCI m kv.1 kv.2)
        ((match config.defaultHeaders with
          | some ds => ds
          | none => []).foldl (fun m (kv : String × String) => hsetCI m kv.1 kv.2) [])
  , timeoutMs :=
      if jsTruthyNat config.timeout &&
         !(jsTruthyNat (match callOptions with | some co => co.timeoutMs | none => none)) then
        config.timeout
      else
        match callOptions with
        | some co => co.timeoutMs
        | none => none }

/-- The names `prop in target` finds on a GrpcClient instance: its fields, its
prototype methods, and the Object.prototype members. -/
def grpcOwnProps : List String :=
  ["maliceClient", "listenerClient", "config",
   "constructor", "createTransport", "getMaliceClient", "getListenerClient",
   "createCallOptions", "mergeCallOptions", "log",
   "hasOwnProperty", "isPrototypeOf", "propertyIsEnumerable", "toLocaleString",
   "toString", "valueOf",
   "__proto__", "__defineGetter__", "__defineSetter__", "__lookupGetter__", "__lookupSetter__"]

/-- Of those, the ones whose value is a function. -/
def grpcOwnFnProps : List String :=
  ["constructor", "createTransport", "getMaliceClient", "getListenerClient",
   "createCallOptions", "mergeCallOptions", "log",
   "hasOwnProperty", "isPrototypeOf", "propertyIsEnumerable", "toLocaleString",
   "toString", "valueOf",
   "__defineGetter__", "__defineSetter__", "__lookupGetter__", "__lookupSetter__"]

/-- A GrpcClient as the dispatcher model sees it: its config and the two
capability sets, each a partial mapping from method name to implementation. -/
structure GrpcClientModel where
  config : GrpcClientConfig
  malice : String → Option (JsValue → CallOpts → JsValue)
  listener : String → Option (JsValue → CallOpts → JsValue)

/-- Which capability set a forwarded call was routed to. -/
inductive Route where
  | malice
  | listener
deriving DecidableEq

/-- What the proxy `get` of client.node.ts:36-64 produces for one property
access followed (when forwarded) by one invocation. -/
inductive GetResult where
  | ownProp
  | forwarded (route : Route) (result : JsValue) (optsUsed : CallOpts)
  | notFound (msg : String)
deriving DecidableEq

/-- The proxy `get` of GrpcClient (client.node.ts:36-64), with the returned
forwarding closure applied to `(request, callOptions)`: own properties and
underscore names bypass forwarding; otherwise MaliceRPC is consulted first,
then ListenerRPC, each invoked with the merged call options; a name in
neither throws the method-not-found error. -/
def grpcClientGet (c : GrpcClientModel) (prop : String) (request : JsValue)
    (callOptions : Option CallOpts) : GetResult :=
  if prop ∈ grpcOwnProps ∨ strStartsWith prop "_" then .ownProp
  else
    match c.malice prop with
    | some f =>
      .forwarded .malice (f request (mergeCallOptions c.config callOptions))
        (mergeCallOptions c.config callOptions)
    | none =>
      match c.listener prop with
      | some f =>
        .forwarded .listener (f request (mergeCallOptions c.config callOptions))
          (mergeCallOptions c.config callOptions)
      | none => .notFound ("Method '" ++ prop ++ "' not found on MaliceRPC or ListenerRPC")

/-! Session scope property resolution: embedding of src/src/session.ts lines
28-106, over an abstract view of what reading one property off the underlying
client yields (a function, a non-function value, or a thrown error). -/

/-- What reading a property off the underlying client yields when it does not
throw: a callable or a non-function value. -/
inductive ClientProp where
  | fn
  | nonFn
deriving DecidableEq

/-- Property read on the GrpcClient proxy (client.node.ts:36-64) without
invoking the result: own and underscore properties yield their value, names in
a capability set yield the forwarding closure, anything else throws. -/
def grpcClientProp (c : GrpcClientModel) (prop : String) : Except String ClientProp :=
  if prop ∈ grpcOwnProps ∨ strStartsWith prop "_" then
    .ok (if prop ∈ grpcOwnFnProps then .fn else .nonFn)
  else
    match c.malice prop with
    | some _ => .ok .fn
    | none =>
      match c.listener prop with
      | some _ => .ok .fn
      | none => .error ("Method '" ++ prop ++ "' not found on MaliceRPC or ListenerRPC")

/-- SessionInfo (session.ts:9-14); the index-signature extra fields are
advisory and not modelled. -/
structure SessionInfo where
  sessionId : String
  name : Option String
  type : Option String
deriving DecidableEq

/-- What property resolution on a Session scope yields when it does not throw:
scope-local data for the reserved accessors, a bound sync or plain forwarding
closure, or undefined. -/
inductive SessionPropResult where
  | infoVal (info : SessionInfo)
  | strVal (s : String)
  | getterVal (s : String)
  | syncFn (actualMethod : String)
  | normalFn (methodName : String)
  | undefinedVal
deriving DecidableEq

/-- The proxy `get` of Session (session.ts:28-106): the three reserved
accessors return scope-local data before anything else; a null client then
throws; a sync_-prefixed name reads the suffix off the client (a throw
propagates) and binds a sync closure when it is a function, otherwise control
falls through to the plain path; the plain path reads the name off the client
(a throw propagates), binds a forwarding closure when it is a function and
resolves to undefined otherwise. -/
def sessionGet (client : Option (String → Except String ClientProp)) (info : SessionInfo)
    (prop : String) : Except String SessionPropResult :=
  if prop = "sessionInfo" then .ok (.infoVal info)
  else if prop = "sessionId" then .ok (.strVal info.sessionId)
  else if prop = "getSessionId" then .ok (.getterVal info.sessionId)
  else
    match client with
    | none => .error ("Session client is not initialized. Cannot access property '" ++ prop ++ "'")
    | some cl =>
      if strStartsWith prop "sync_" then
        match cl (strDrop prop 5) with
        | .error e => .error e
        | .ok .fn => .ok (.syncFn (strDrop prop 5))
        | .ok .nonFn =>
          match cl prop with
          | .error e => .error e
          | .ok .fn => .ok (.normalFn prop)
          | .ok .nonFn => .ok .undefinedVal
      else
        match cl prop with
        | .error e => .error e
        | .ok .fn => .ok (.normalFn prop)
        | .ok .nonFn => .ok .undefinedVal

/-! Concrete instances used to evaluate the model at specific inputs. -/

/-- A client whose submit method reports a task with a non-empty session id. -/
def submitWithRemoteSid : ClientModel :=
  { methodImpl := fun _ _ => .obj (some "task-9") (some "remote-7") "submitted"
  , waitTaskFinish := fun _ _ => .prim "finished" }

/-- A client whose submit method reports a task whose session id field is
present but the empty string. -/
def submitWithEmptySid : ClientModel :=
  { methodImpl := fun _ _ => .obj (some "task-1") (some "") "submitted"
  , waitTaskFinish := fun _ _ => .prim "finished" }

/-- A client whose submit method returns a plain value with no task id. -/
def submitPlainValue : ClientModel :=
  { methodImpl := fun _ _ => .prim "immediate"
  , waitTaskFinish := fun _ _ => .prim "finished" }

/-- A web-transport client configuration with no defaults. -/
def sampleGrpcConfig : GrpcClientConfig :=
  { transport := some .grpcWeb, baseUrl := some "http://localhost:8080"
  , auth := none, timeout := none, defaultHeaders := none }

/-- A dispatcher with one operator method and one listener method. -/
def sampleGrpcClient : GrpcClientModel :=
  { config := sampleGrpcConfig
  , malice := fun n => if n = "getSessions" then some (fun _ _ => .prim "sessions") else none
  , listener := fun n => if n = "listJobs" then some (fun _ _ => .prim "jobs") else none }

/-- A dispatcher with empty capability sets. -/
def emptyGrpcClient : GrpcClientModel :=
  { config := sampleGrpcConfig
  , malice := fun _ => none
  , listener := fun _ => none }

/-- Native transport requested, no auth material. -/
def cfgNativeNoAuth : GrpcClientConfig :=
  { transport := some .grpc, baseUrl := none, auth := none, timeout := none
  , defaultHeaders := none }

/-- Web transport requested, no base URL. -/
def cfgWebNoUrl : GrpcClientConfig :=
  { transport := some .grpcWeb, baseUrl := none, auth := none, timeout := none
  , defaultHeaders := none }

/-! Helper lemmas. -/

/-- Reading a key right after writing it yields the written value. -/
theorem hget_hset (m : List (String × String)) (k v : String) :
    hget (hset m k v) k = some v := by
  induction m with
  | nil => simp [hset, hget]
  | cons p m ih => by_cases hp : p.1 = k <;> simp [hset, hget, hp, ih]

/-- The header record a session-scoped call builds always binds `session_id`
to the scope's identifier. -/
theorem hget_buildHeaders (sid : String) (ch : Option (List (String × String))) :
    hget (buildHeaders sid ch) "session_id" = some sid := by
  unfold buildHeaders
  exact hget_hset _ _ _

/-- Phase one of a sync_ call always passes the request together with the
freshly built header record and the caller's timeout. -/
theorem syncCall_submitCall (client : ClientModel) (sid : String) (request : JsValue)
    (options : Options) :
    (syncCall client sid request options).submitCall =
      (request, { headers := buildHeaders sid options.headers
                , timeoutMs := options.timeoutMs }) := by
  unfold syncCall
  rcases client.methodImpl request
      { headers := buildHeaders sid options.headers, timeoutMs := options.timeoutMs } with
    _ | p | ⟨otid, tsid, pay⟩
  · rfl
  · rfl
  · rcases otid with _ | tid <;> rfl

/-! The claims. -/

/-- C1: every call forwarded through a Session scope, on the plain path and on
the sync_ path alike, passes the underlying dispatcher method a header record
in which `session_id` is bound to the scope's session identifier — for every
caller-supplied options object, including ones carrying their own
`session_id` entry, because the scope writes that key last. -/
theorem session_scope_always_injects_session_id (client : ClientModel) (sid : String)
    (request : JsValue) (options : Options) :
    hget (normalCall client sid request options).submitCall.2.headers "session_id" = some sid ∧
    hget (syncCall client sid request options).submitCall.2.headers "session_id" = some sid := by
  refine ⟨?_, ?_⟩
  · simpa [normalCall] using hget_buildHeaders sid options.headers
  · rw [syncCall_submitCall]
    simpa using hget_buildHeaders sid options.headers

/-- C2 counterexample: the scope's identifier is "scope-1", phase one returns
a task object whose sessionId field is present and equal to the empty string,
yet the single waitTaskFinish call carries sessionId "scope-1" (the scope's
identifier), not the phase-one value — `task.sessionId || sid` treats a
present empty string as absent, contradicting the claim's "sessionId taken
from the phase-one result when present". -/
theorem sync_present_empty_session_id_not_taken :
    submitWithEmptySid.methodImpl (.prim "req")
        { headers := [("session_id", "scope-1")], timeoutMs := none } =
      .obj (some "task-1") (some "") "submitted" ∧
    (syncCall submitWithEmptySid "scope-1" (.prim "req")
        { headers := none, timeoutMs := none }).waitCalls =
      [({ taskId := "task-1", sessionId := "scope-1" },
        { headers := [("session_id", "scope-1")], timeoutMs := some 60000 })] ∧
    ("scope-1" : String) ≠ "" := by
  refine ⟨rfl, rfl, by decide⟩

/-- C2 (amended): for every sync_ call whose phase-one result is an object
with a task identifier, exactly one waitTaskFinish call is made, with taskId
from phase one and sessionId taken from the phase-one result when it is
present and non-empty, falling back to the scope's own identifier otherwise;
the waitTaskFinish result is what the caller receives. -/
theorem sync_phase_two_exactly_once (client : ClientModel) (sid : String) (request : JsValue)
    (options : Options) (taskId : String) (taskSid : Option String) (payload : String)
    (h : client.methodImpl request
        { headers := buildHeaders sid options.headers, timeoutMs := options.timeoutMs } =
      .obj (some taskId) taskSid payload) :
    (syncCall client sid request options).waitCalls =
      [({ taskId := taskId, sessionId := jsOrString taskSid sid },
        { headers := buildHeaders sid options.headers
        , timeoutMs := some (jsOrNat options.timeoutMs 60000) })] ∧
    (syncCall client sid request options).result =
      client.waitTaskFinish { taskId := taskId, sessionId := jsOrString taskSid sid }
        { headers := buildHeaders sid options.headers
        , timeoutMs := some (jsOrNat options.timeoutMs 60000) } := by
  unfold syncCall
  rw [h]
  exact ⟨rfl, rfl⟩

/-- C2 witness: a concrete sync_ call whose phase one reports task "task-9"
owned by session "remote-7": one wait call with exactly those values, caller
timeout 5000 reused, and the wait result returned. -/
theorem sync_phase_two_exactly_once_witness :
    (syncCall submitWithRemoteSid "scope-2" (.prim "req")
        { headers := none, timeoutMs := some 5000 }).waitCalls =
      [({ taskId := "task-9", sessionId := "remote-7" },
        { headers := [("session_id", "scope-2")], timeoutMs := some 5000 })] ∧
    (syncCall submitWithRemoteSid "scope-2" (.prim "req")
        { headers := none, timeoutMs := some 5000 }).result = .prim "finished" :=
  sync_phase_two_exactly_once submitWithRemoteSid "scope-2" (.prim "req")
    { headers := none, timeoutMs := some 5000 } "task-9" (some "remote-7") "submitted" rfl

/-- C3: for every sync_ call whose phase-one result is not an object carrying
a task identifier field, the caller receives the phase-one result unchanged
and no waitTaskFinish call is made. -/
theorem sync_passthrough_without_task (client : ClientModel) (sid : String) (request : JsValue)
    (options : Options)
    (h : hasTaskShape (client.methodImpl request
        { headers := buildHeaders sid options.headers, timeoutMs := options.timeoutMs }) = false) :
    (syncCall client sid request options).result =
      client.methodImpl request
        { headers := buildHeaders sid options.headers, timeoutMs := options.timeoutMs } ∧
    (syncCall client sid request options).waitCalls = [] := by
  unfold syncCall
  rcases hM : client.methodImpl request
      { headers := buildHeaders sid options.headers, timeoutMs := options.timeoutMs } with
    _ | p | ⟨otid, tsid, pay⟩
  · exact ⟨rfl, rfl⟩
  · exact ⟨rfl, rfl⟩
  · rcases otid with _ | tid
    · exact ⟨rfl, rfl⟩
    · rw [hM] at h
      simp [hasTaskShape] at h

/-- C3 witness: a concrete sync_ call whose phase one returns the plain value
`.prim "immediate"`: it is returned unchanged and no wait call is made. -/
theorem sync_passthrough_without_task_witness :
    (syncCall submitPlainValue "scope-3" (.prim "req")
        { headers := none, timeoutMs := none }).result = .prim "immediate" ∧
    (syncCall submitPlainValue "scope-3" (.prim "req")
        { headers := none, timeoutMs := none }).waitCalls = [] :=
  sync_passthrough_without_task submitPlainValue "scope-3" (.prim "req")
    { headers := none, timeoutMs := none } rfl

/-- C4: for every dispatched method name (one the proxy forwards, i.e. not an
own or underscore property), the dispatcher consults MaliceRPC first and then
ListenerRPC, invoking the first set that defines the name with the merged
call options; a name defined in neither fails with the method-not-found error
naming the method. -/
theorem dispatcher_routes_operator_then_listener (c : GrpcClientModel) (name : String)
    (request : JsValue) (callOptions : Option CallOpts)
    (hown : name ∉ grpcOwnProps) (hund : strStartsWith name "_" = false) :
    (∀ f, c.malice name = some f →
      grpcClientGet c name request callOptions =
        .forwarded .malice (f request (mergeCallOptions c.config callOptions))
          (mergeCallOptions c.config callOptions)) ∧
    (c.malice name = none → ∀ f, c.listener name = some f →
      grpcClientGet c name request callOptions =
        .forwarded .listener (f request (mergeCallOptions c.config callOptions))
          (mergeCallOptions c.config callOptions)) ∧
    (c.malice name = none → c.listener name = none →
      grpcClientGet c name request callOptions =
        .notFound ("Method '" ++ name ++ "' not found on MaliceRPC or ListenerRPC")) := by
  have hcond : ¬(name ∈ grpcOwnProps ∨ strStartsWith name "_" = true) := by
    simp [hown, hund]
  refine ⟨?_, ?_, ?_⟩
  · intro f hf
    simp [grpcClientGet, hcond, hf]
  · intro hm f hf
    simp [grpcClientGet, hcond, hm, hf]
  · intro hm hl
    simp [grpcClientGet, hcond, hm, hl]

/-- C4 witness: on a dispatcher whose operator set defines getSessions and
whose listener set defines listJobs, getSessions routes to the operator set,
listJobs to the listener set, and an unknown name fails naming the method. -/
theorem dispatcher_routes_operator_then_listener_witness :
    grpcClientGet sampleGrpcClient "getSessions" (.prim "q") none =
      .forwarded .malice (.prim "sessions") { headers := [], timeoutMs := none } ∧
    grpcClientGet sampleGrpcClient "listJobs" (.prim "q") none =
      .forwarded .listener (.prim "jobs") { headers := [], timeoutMs := none } ∧
    grpcClientGet sampleGrpcClient "nosuch" (.prim "q") none =
      .notFound "Method 'nosuch' not found on MaliceRPC or ListenerRPC" :=
  ⟨(dispatcher_routes_operator_then_listener sampleGrpcClient "getSessions" (.prim "q") none
      (by decide) (by decide)).1 _ rfl,
   (dispatcher_routes_operator_then_listener sampleGrpcClient "listJobs" (.prim "q") none
      (by decide) (by decide)).2.1 rfl _ rfl,
   (dispatcher_routes_operator_then_listener sampleGrpcClient "nosuch" (.prim "q") none
      (by decide) (by decide)).2.2 rfl rfl⟩

/-- C5: for every spite whose outer error code is None (absent or zero),
parseTaskContext returns without throwing, with output and error taken from
the body's response variant and defaulting to the empty string — a non-empty
response error string is returned as data, never thrown. -/
theorem decode_error_none_returns_body (s : Spite) (h : jsOrNat s.error 0 = 0) :
    parseTaskContext (some { spite := some s }) =
      .ok (match s.body with
          | some (.response (some r)) =>
            { output := jsOrString r.output "", error := jsOrString r.error ""
            , response := some r }
          | _ => { output := "", error := "", response := none }) := by
  have hm : handleMaleficError (some s) = none := by
    simp [handleMaleficError, h]
  rcases s with ⟨se, st, sb⟩
  rcases sb with _ | b
  · simp [parseTaskContext, hm, extractResponse, extractOutput, extractError]
  · rcases b with v | cn
    · rcases v with _ | r
      · simp [parseTaskContext, hm, extractResponse, extractOutput, extractError]
      · simp [parseTaskContext, hm, extractResponse, extractOutput, extractError]
    · simp [parseTaskContext, hm, extractResponse, extractOutput, extractError]

/-- C5 witness: an envelope with error code 0 and body response
`{output: "ok", error: "boom"}` decodes throw-free to output "ok" with the
non-empty application error "boom" returned as data. -/
theorem decode_error_none_returns_body_witness :
    parseTaskContext (some { spite := some { error := some 0, status := none, body := some (.response (some { output := some "ok", error := some "boom" })) } }) =
      .ok { output := "ok", error := "boom", response := some { output := some "ok", error := some "boom" } } :=
  decode_error_none_returns_body { error := some 0, status := none, body := some (.response (some { output := some "ok", error := some "boom" })) } rfl

/-- C6: for every envelope with outer code TaskError (6) and a present status
whose inner code is one of the non-None Taxonomy B codes (1..6), decoding
throws an error whose numeric code equals the inner status code and whose
message embeds the status's own error text verbatim. -/
theorem decode_task_error_embeds_status_text (c : Nat) (t : String) (b : Option SpiteBody)
    (h1 : 1 ≤ c) (h2 : c ≤ 6) :
    ∃ e : SpiteError,
      parseTaskContext (some { spite := some { error := some 6, status := some { status := some c, error := some t }, body := b } }) = .error e ∧
      e.code = some c ∧
      ∃ pre post : List Char, e.message.data = pre ++ t.data ++ post := by
  have hp : parseTaskContext (some { spite := some { error := some 6, status := some { status := some c, error := some t }, body := b } }) =
      .error { message := "task error: " ++ jsOrString (some t) "unknown error", code := some c } := by
    interval_cases c <;> rfl
  refine ⟨_, hp, rfl, ?_⟩
  by_cases ht : t = ""
  · subst ht
    refine ⟨"task error: unknown error".data, [], ?_⟩
    show ("task error: " ++ jsOrString (some "") "unknown error").data =
      "task error: unknown error".data ++ "".data ++ []
    decide
  · exact ⟨"task error: ".data, [], by simp [jsOrString, ht, String.data_append]⟩

/-- C6 witness: `{error: TaskError, status: {status: FieldRequired (3),
error: "path required"}}` throws an error with code 3 whose message contains
"path required". -/
theorem decode_task_error_embeds_status_text_witness :
    (1 ≤ 3 ∧ 3 ≤ 6) ∧
    ∃ e : SpiteError,
      parseTaskContext (some { spite := some { error := some 6, status := some { status := some 3, error := some "path required" }, body := none } }) = .error e ∧
      e.code = some 3 ∧
      ∃ pre post : List Char, e.message.data = pre ++ "path required".data ++ post :=
  ⟨by decide,
   decode_task_error_embeds_status_text 3 "path required" none (by decide) (by decide)⟩

/-- C7 counterexample: on a null task context the triple-returning entry point
throws "nil task context" while the fast-path entry point returns the empty
string without throwing; likewise for a context whose envelope is null — the
claim that no input makes one entry point throw while the other returns a
value is false. -/
theorem fast_path_diverges_on_nil_context :
    getOutputFromTaskContext none = .ok "" ∧
    parseTaskContext none = .error { message := "nil task context", code := none } ∧
    getOutputFromTaskContext (some { spite := none }) = .ok "" ∧
    parseTaskContext (some { spite := none }) =
      .error { message := "nil spite in task context", code := none } :=
  ⟨rfl, rfl, rfl, rfl⟩

/-- C7 (amended): for every task context whose envelope is present, the two
entry points throw identical errors (both apply the Taxonomy A classification
before returning anything); on a null context or a null envelope the
triple-returning entry point throws its nil errors while the fast path
returns the empty string. -/
theorem entry_points_throw_identically_on_present_spite :
    (∀ (s : Spite) (e : SpiteError),
      getOutputFromTaskContext (some { spite := some s }) = .error e ↔
      parseTaskContext (some { spite := some s }) = .error e) ∧
    parseTaskContext none = .error { message := "nil task context", code := none } ∧
    getOutputFromTaskContext none = .ok "" ∧
    parseTaskContext (some { spite := none }) =
      .error { message := "nil spite in task context", code := none } ∧
    getOutputFromTaskContext (some { spite := none }) = .ok "" := by
  refine ⟨?_, rfl, rfl, rfl, rfl⟩
  intro s e
  cases hm : handleMaleficError (some s) with
  | none =>
    simp [getOutputFromTaskContext, extractResponseFromTaskContext, parseTaskContext, hm]
  | some e0 =>
    simp [getOutputFromTaskContext, extractResponseFromTaskContext, parseTaskContext, hm]

/-- C8 counterexample: on a dispatcher that defines no method of that name,
resolving the non-reserved, non-sync name "uninstalledMethod" on a Session
scope does not yield undefined — the dispatcher proxy's method-not-found
error is thrown during property resolution and propagates. -/
theorem session_unknown_method_resolution_throws :
    sessionGet (some (grpcClientProp emptyGrpcClient))
        { sessionId := "sid-8", name := none, type := none } "uninstalledMethod" =
      .error "Method 'uninstalledMethod' not found on MaliceRPC or ListenerRPC" ∧
    sessionGet (some (grpcClientProp emptyGrpcClient))
        { sessionId := "sid-8", name := none, type := none } "uninstalledMethod" ≠
      .ok .undefinedVal := by
  refine ⟨rfl, ?_⟩
  intro hcontra
  rw [show sessionGet (some (grpcClientProp emptyGrpcClient))
        { sessionId := "sid-8", name := none, type := none } "uninstalledMethod" =
      .error "Method 'uninstalledMethod' not found on MaliceRPC or ListenerRPC" from rfl]
    at hcontra
  exact Except.noConfusion hcontra

/-- C8 (amended): for every non-reserved, non-sync_-prefixed name, a Session
scope's property resolution mirrors the underlying dispatcher's property
read: a name on which the dispatcher throws (not found in either capability
set) makes resolution throw that same error, while a name the dispatcher
resolves to a non-function value yields undefined — the soft-failure probing
applies only to non-function values, not to absent methods. -/
theorem session_resolution_mirrors_client (cl : String → Except String ClientProp)
    (info : SessionInfo) (prop : String)
    (h1 : prop ≠ "sessionInfo") (h2 : prop ≠ "sessionId") (h3 : prop ≠ "getSessionId")
    (h4 : strStartsWith prop "sync_" = false) :
    (∀ e, cl prop = .error e → sessionGet (some cl) info prop = .error e) ∧
    (cl prop = .ok .nonFn → sessionGet (some cl) info prop = .ok .undefinedVal) := by
  refine ⟨?_, ?_⟩
  · intro e he
    simp [sessionGet, h1, h2, h3, h4, he]
  · intro hn
    simp [sessionGet, h1, h2, h3, h4, hn]

/-- C8 witness: on the empty dispatcher, the own property "config" resolves
to a non-function value, so the Session scope resolves it to undefined. -/
theorem session_resolution_mirrors_client_witness :
    sessionGet (some (grpcClientProp emptyGrpcClient))
        { sessionId := "sid-8w", name := none, type := none } "config" = .ok .undefinedVal :=
  (session_resolution_mirrors_client (grpcClientProp emptyGrpcClient)
      { sessionId := "sid-8w", name := none, type := none } "config"
      (by decide) (by decide) (by decide) (by decide)).2 rfl

/-- C9: a dispatcher client constructed with the native gRPC transport but no
auth material fails at construction with the auth-required error, and one
constructed with the gRPC-Web transport but no base URL fails at construction
with the baseUrl-required error — in both cases the constructor's
createTransport call throws before any remote call could be attempted. -/
theorem construction_fails_without_transport_material (config : GrpcClientConfig) :
    (config.transport = some .grpc → config.auth = none →
      constructGrpcClient config =
        .error "Auth configuration is required for native gRPC transport") ∧
    (config.transport = some .grpcWeb → config.baseUrl = none →
      constructGrpcClient config =
        .error "baseUrl is required for gRPC-Web transport") := by
  refine ⟨?_, ?_⟩
  · intro ht ha
    simp [constructGrpcClient, createTransport, ht, ha]
  · intro ht hb
    simp [constructGrpcClient, createTransport, ht, hb, jsTruthyStr]

/-- C9 witness: the two concrete misconfigurations, evaluated. -/
theorem construction_fails_without_transport_material_witness :
    constructGrpcClient cfgNativeNoAuth =
      .error "Auth configuration is required for native gRPC transport" ∧
    constructGrpcClient cfgWebNoUrl =
      .error "baseUrl is required for gRPC-Web transport" :=
  ⟨(construction_fails_without_transport_material cfgNativeNoAuth).1 rfl rfl,
   (construction_fails_without_transport_material cfgWebNoUrl).2 rfl rfl⟩

/-- C10: on a Session scope whose underlying client reference is absent, the
reserved accessors sessionInfo, sessionId and getSessionId still return the
scope-local session data without throwing, and every other property access
throws the named not-initialized error — the reserved-accessor checks precede
the null-client check. -/
theorem session_reserved_accessors_precede_null_check (info : SessionInfo) (prop : String)
    (h1 : prop ≠ "sessionInfo") (h2 : prop ≠ "sessionId") (h3 : prop ≠ "getSessionId") :
    sessionGet none info "sessionInfo" = .ok (.infoVal info) ∧
    sessionGet none info "sessionId" = .ok (.strVal info.sessionId) ∧
    sessionGet none info "getSessionId" = .ok (.getterVal info.sessionId) ∧
    sessionGet none info prop =
      .error ("Session client is not initialized. Cannot access property '" ++ prop ++ "'") := by
  refine ⟨rfl, rfl, rfl, ?_⟩
  simp [sessionGet, h1, h2, h3]

/-- C10 witness: with a null client, the three reserved accessors of a
concrete scope return its data and accessing "ls" throws the named error. -/
theorem session_reserved_accessors_precede_null_check_witness :
    sessionGet none { sessionId := "sid-10", name := none, type := none } "sessionInfo" =
      .ok (.infoVal { sessionId := "sid-10", name := none, type := none }) ∧
    sessionGet none { sessionId := "sid-10", name := none, type := none } "sessionId" =
      .ok (.strVal "sid-10") ∧
    sessionGet none { sessionId := "sid-10", name := none, type := none } "getSessionId" =
      .ok (.getterVal "sid-10") ∧
    sessionGet none { sessionId := "sid-10", name := none, type := none } "ls" =
      .error "Session client is not initialized. Cannot access property 'ls'" :=
  session_reserved_accessors_precede_null_check
    { sessionId := "sid-10", name := none, type := none } "ls"
    (by decide) (by decide) (by decide)

end IoM
